import Mathlib

/-!
Verification of the conversational frontend in `app.py` (Streamlit chat client
for a remote multi-agent backend).  The definitions below are a shallow
embedding of the Python source: dictionaries whose keys may be absent become
structures with `Option` fields (with `none` meaning the key is absent), the
`dict.get` defaults are applied exactly where the source applies them, and
operations that Python would abort with an exception return `Except`.
-/

/-- One agent step dictionary as received from the backend
(`render_agent_activity`, app.py lines 359-364).  Every field is read through
`step.get`, so every field may be absent. -/
structure Step where
  status : Option String
  agent_icon : Option String
  agent : Option String
  action : Option String
  details : Option (List String)
deriving DecidableEq

/-- The `validation` dictionary of a backend response; only the `passed` key is
ever read (`val.get` with default `True`, app.py lines 536 and 608). -/
structure Validation where
  passed : Option Bool
deriving DecidableEq

/-- The metadata dictionary SAVED into history for an assistant message
(app.py lines 615-620).  All four keys are always present in the saved dict;
`none` here models a key that is present with value `None` (because the source
stores `result.get` WITHOUT a default for intent, intent_confidence and
validation).  `rag_documents` is stored with default `[]`, hence a plain list. -/
structure Metadata where
  intent : Option String
  intent_confidence : Option ℚ
  validation : Option Validation
  rag_documents : List String
deriving DecidableEq

/-- A backend chat response dictionary.  `none` models an absent key.
Confidence values are modelled as rationals. -/
structure ChatResult where
  success : Option Bool
  response : Option String
  agent_steps : Option (List Step)
  intent : Option String
  intent_confidence : Option ℚ
  rag_documents : Option (List String)
  validation : Option Validation
  error : Option String
deriving DecidableEq

/-- A decoded JSON value as produced by `response.json()` in `call_api`
(app.py line 305): either a string (which the client re-decodes once), an
object (modelled by `ChatResult`), or null. -/
inductive Json where
  | jstr (s : String)
  | jobj (r : ChatResult)
  | jnull
deriving DecidableEq

/-- Outcome of the HTTP exchange inside the `try` block of `call_api`:
either `response.json()` produced a value, or some step raised
(network failure, timeout, undecodable body), which the `except` catches. -/
inductive NetResult where
  | ok (v : Json)
  | exc (msg : String)
deriving DecidableEq

/-- The outbound POST request built by `call_api` (app.py lines 296-304):
operation plus payload entries, with the bearer-token header. -/
structure ChatRequest where
  operation : String
  data : List (String × String)
  auth : String
deriving DecidableEq

/-- Observable result of one `call_api` invocation: `request = none` means no
network request was issued; `returned` is the Python return value
(`none` = Python `None`); `errorShown` is the `st.error` banner, if any. -/
structure ApiReturn where
  request : Option ChatRequest
  returned : Option Json
  errorShown : Option String
deriving DecidableEq

/-- One entry of `st.session_state.messages`.  `agent_steps` and `metadata`
keys exist only on assistant messages saved by the success branch
(`none` models an absent key, as on user messages). -/
structure Msg where
  role : String
  content : String
  agent_steps : Option (List Step)
  metadata : Option Metadata
deriving DecidableEq

/-- Observable outcome of processing one submitted prompt
(app.py lines 548-625): the updated history, whether `send_chat` was invoked,
and what was displayed inline for this render only. -/
structure TurnOutcome where
  messages : List Msg
  dispatched : Bool
  displayedError : Option String
  displayedResponse : Option String
deriving DecidableEq

/-- The ambient per-session state bag `st.session_state`
(initialised at app.py lines 190-203). -/
structure SessionState where
  authenticated : Bool
  messages : List Msg
  session_id : String
  context : String
  custom_instructions : String
  login_attempts : Nat
  show_agent_activity : Bool
  pending_prompt : Option String
deriving DecidableEq

/-- `verify_access_key` (app.py lines 208-212): an unset or empty configured
key accepts everything; otherwise plain string equality. -/
def verify_access_key (user_access_key entered_key : String) : Bool :=
  if user_access_key = "" then true
  else entered_key == user_access_key

/-- The login form submit handler (app.py lines 234-245): the entered key must
be truthy (non-empty) AND pass `verify_access_key` to authenticate; otherwise
the attempt counter is incremented. -/
def login_submit (user_access_key : String) (st : SessionState)
    (access_key : String) : SessionState :=
  if (!(access_key == "")) && verify_access_key user_access_key access_key then
    { st with authenticated := true, login_attempts := 0 }
  else
    { st with login_attempts := st.login_attempts + 1 }

/-- Session-id initialisation (app.py lines 194-195): the guard
`if session_id not in st.session_state` keeps an existing id and only mints
`str(int(time.time()))` when none exists yet. -/
def init_session_id (existing : Option String) (now : Int) : String :=
  match existing with
  | some s => s
  | none => toString now

/-- `call_api` (app.py lines 289-309).  With an empty endpoint it shows an
error and returns `None` without building a request.  Otherwise the network
outcome `net` stands for the single POST plus `response.json()`; a body that
decoded to a string is passed through `json.loads` (modelled by `loads`)
exactly once; any exception is caught and turned into an error banner and a
`None` return. -/
def call_api (endpoint api_key : String) (loads : String → Option Json)
    (net : NetResult) (operation : String) (data : List (String × String)) :
    ApiReturn :=
  if endpoint = "" then
    { request := none, returned := none,
      errorShown := some "⚠️ API not configured." }
  else
    let req : ChatRequest :=
      { operation := operation, data := data, auth := "Bearer " ++ api_key }
    match net with
    | NetResult.ok v =>
      match v with
      | Json.jstr s =>
        match loads s with
        | some v2 => { request := some req, returned := some v2, errorShown := none }
        | none =>
          { request := some req, returned := none,
            errorShown := some "❌ Error: string body is not valid JSON" }
      | v2 => { request := some req, returned := some v2, errorShown := none }
    | NetResult.exc m =>
      { request := some req, returned := none,
        errorShown := some ("❌ Error: " ++ m) }

/-- `send_chat` (app.py lines 311-318): a `chat` call whose payload carries the
message together with the session id, context and custom instructions read from
the session state. -/
def send_chat (endpoint api_key : String) (loads : String → Option Json)
    (net : NetResult) (st : SessionState) (message : String) : ApiReturn :=
  call_api endpoint api_key loads net "chat"
    [("message", message),
     ("session_id", st.session_id),
     ("context", st.context),
     ("custom_instructions", st.custom_instructions)]

/-- The completed-step count of `render_agent_activity` (app.py line 351):
`sum(1 for s in agent_steps if s.get("status") == "completed")`; an absent
status key yields `None`, which is not equal to `"completed"`. -/
def completedCount (agent_steps : List Step) : Nat :=
  (agent_steps.filter (fun s => s.status == some "completed")).length

/-- The progress fraction of `render_agent_activity` (app.py line 352):
`completed / total_steps if total_steps > 0 else 0`. -/
def progress (agent_steps : List Step) : ℚ :=
  if agent_steps.length > 0 then
    (completedCount agent_steps : ℚ) / (agent_steps.length : ℚ)
  else 0

/-- The per-step status icon of `render_agent_activity` (app.py lines 360 and
367-378): the status defaults to `"completed"` when the key is absent, then
selects the icon. -/
def step_status_icon (s : Step) : String :=
  let status := s.status.getD "completed"
  if status = "completed" then "✅"
  else if status = "running" then "🔄"
  else if status = "error" then "❌"
  else "⏳"

/-- The displayed output of `render_agent_activity` (app.py lines 337-388):
nothing at all for an empty step list (early return), otherwise the progress
fraction and the per-step status icons. -/
def render_agent_activity (agent_steps : List Step) :
    Option (ℚ × List String) :=
  if agent_steps = [] then none
  else some (progress agent_steps, agent_steps.map step_status_icon)

/-- Python f-string formatting `conf:.0%` applied to a value that is either a
number or `None`: formatting `None` with a numeric format spec raises
`TypeError`.  Only success or failure is modelled. -/
def format_percent : Option ℚ → Except String Unit
  | some _ => Except.ok ()
  | none =>
    Except.error "unsupported format string passed to NoneType.__format__"

/-- Python `val.get(passed, True)` applied to a value that is either a dict or
`None`: calling `.get` on `None` raises `AttributeError`. -/
def dict_get_passed : Option Validation → Except String Bool
  | some v => Except.ok (v.passed.getD true)
  | none => Except.error "NoneType object has no attribute get"

/-- First rendering of a fresh successful response (app.py lines 581-608):
every field is read with a default (`agent_steps` and `rag_documents` default
to `[]`, `intent` to `N/A` for display, `intent_confidence` to `0`,
`validation` to an empty dict whose `passed` defaults to `True`). -/
def render_turn_success (r : ChatResult) : Except String Unit := do
  let _activity := render_agent_activity (r.agent_steps.getD [])
  let _response := r.response.getD ""
  let _intent := r.intent.getD "N/A"
  let _ ← format_percent (some (r.intent_confidence.getD 0))
  let _docs := r.rag_documents.getD []
  let _ ← dict_get_passed (some (r.validation.getD { passed := none }))
  Except.ok ()

/-- Re-rendering of one history message (app.py lines 510-538).  For an
assistant message with a metadata dict, `meta.get` returns the SAVED values:
the keys are present, so a saved `None` reaches the `:.0%` format and the
`.get` on the validation value directly. -/
def render_history_msg (show_activity : Bool) (m : Msg) : Except String Unit :=
  if m.role = "assistant" then
    let steps := m.agent_steps.getD []
    let _activity :=
      if show_activity && !(steps == []) then render_agent_activity steps
      else none
    match m.metadata with
    | some meta => do
      let _intent := meta.intent
      let _ ← format_percent meta.intent_confidence
      let _docs := meta.rag_documents
      let _ ← dict_get_passed meta.validation
      Except.ok ()
    | none => Except.ok ()
  else Except.ok ()

/-- Re-rendering of the whole chat history (app.py lines 510-538); the first
raised exception aborts the script run. -/
def render_history (show_activity : Bool) : List Msg → Except String Unit
  | [] => Except.ok ()
  | m :: rest => do
    let _ ← render_history_msg show_activity m
    render_history show_activity rest

/-- Python truthiness of the `prompt` value guarding submission
(app.py line 548): `None` and the empty string are falsy, every other string
(whitespace-only included) is truthy. -/
def prompt_truthy : Option String → Bool
  | none => false
  | some p => !(p == "")

/-- The user message appended on submission (app.py line 550): a dict with
only `role` and `content` keys. -/
def userMsg (p : String) : Msg :=
  { role := "user", content := p, agent_steps := none, metadata := none }

/-- The assistant message saved to history by the success branch
(app.py lines 611-621): `content` and `agent_steps` are saved with defaults,
while `intent`, `intent_confidence` and `validation` are saved raw
(`None` when absent) and `rag_documents` with default `[]`. -/
def assistantMsgOf (r : ChatResult) : Msg :=
  { role := "assistant"
  , content := r.response.getD ""
  , agent_steps := some (r.agent_steps.getD [])
  , metadata := some
      { intent := r.intent
      , intent_confidence := r.intent_confidence
      , validation := r.validation
      , rag_documents := r.rag_documents.getD [] } }

/-- The error text of the failure branch (app.py line 624):
`result.get(error, Unknown error) if result else Connection failed`. -/
def backend_error_text : Option ChatResult → String
  | some r => r.error.getD "Unknown error"
  | none => "Connection failed"

/-- Processing of one submitted prompt (app.py lines 548-625).  `backend` is
what `send_chat` returned (`none` = Python `None`, i.e. the call failed or was
not configured).  A truthy prompt appends the user message and dispatches
exactly one call; the success branch (`result and result.get(success)`)
appends the assistant message, the failure branch only shows an inline error
banner and appends nothing. -/
def processPrompt (messages : List Msg) (prompt : Option String)
    (backend : Option ChatResult) : TurnOutcome :=
  if prompt_truthy prompt then
    let p := prompt.getD ""
    let withUser := messages ++ [userMsg p]
    match backend with
    | some r =>
      if r.success.getD false then
        { messages := withUser ++ [assistantMsgOf r]
        , dispatched := true
        , displayedError := none
        , displayedResponse := some (r.response.getD "") }
      else
        { messages := withUser
        , dispatched := true
        , displayedError := some ("❌ " ++ backend_error_text (some r))
        , displayedResponse := none }
    | none =>
      { messages := withUser
      , dispatched := true
      , displayedError := some ("❌ " ++ backend_error_text none)
      , displayedResponse := none }
  else
    { messages := messages
    , dispatched := false
    , displayedError := none
    , displayedResponse := none }

/-- Prompt resolution (app.py lines 541-545): a truthy pending prompt from the
sidebar wins and is cleared; otherwise the chat input box is used. -/
def resolve_prompt (st : SessionState) (chatInput : Option String) :
    Option String × SessionState :=
  match st.pending_prompt with
  | some p =>
    if p ≠ "" then (some p, { st with pending_prompt := none })
    else (chatInput, st)
  | none => (chatInput, st)

/-- The state-mutating user events of the app: logout and clear buttons
(app.py lines 402-405 and 478-480), sidebar selections (lines 412-419,
431-436, 442-446), example-prompt buttons (lines 425-427), login submission
(lines 234-245) and chat submission (lines 541-625). -/
inductive AppEvent where
  | logout
  | clearHistory
  | selectContext (c : String)
  | setInstructions (s : String)
  | setShowActivity (b : Bool)
  | examplePrompt (p : String)
  | loginSubmit (user_access_key entered : String)
  | submitChat (chatInput : Option String) (backend : Option ChatResult)
deriving DecidableEq

/-- Effect of each user event on the session state, transcribed from the
handlers cited on `AppEvent`. -/
def applyEvent (st : SessionState) (e : AppEvent) : SessionState :=
  match e with
  | AppEvent.logout => { st with authenticated := false, messages := [] }
  | AppEvent.clearHistory => { st with messages := [] }
  | AppEvent.selectContext c => { st with context := c }
  | AppEvent.setInstructions s => { st with custom_instructions := s }
  | AppEvent.setShowActivity b => { st with show_agent_activity := b }
  | AppEvent.examplePrompt p => { st with pending_prompt := some p }
  | AppEvent.loginSubmit uak entered => login_submit uak st entered
  | AppEvent.submitChat chatInput backend =>
    let resolved := resolve_prompt st chatInput
    { resolved.2 with
      messages := (processPrompt resolved.2.messages resolved.1 backend).messages }

/-! Concrete fixtures used by witnesses and counterexamples. -/

/-- A baseline session state. -/
def st0 : SessionState :=
  { authenticated := false, messages := [], session_id := "s123"
  , context := "medallion_architecture", custom_instructions := ""
  , login_attempts := 0, show_agent_activity := true, pending_prompt := none }

/-- A backend failure response carrying an error string. -/
def rateLimitedResp : ChatResult :=
  { success := some false, response := none, agent_steps := none
  , intent := none, intent_confidence := none, rag_documents := none
  , validation := none, error := some "rate limited" }

/-- A minimal successful response: only `success` and `response` present. -/
def okResp : ChatResult :=
  { success := some true, response := some "ok", agent_steps := none
  , intent := none, intent_confidence := none, rag_documents := none
  , validation := none, error := none }

/-- A body decoder for the unwrap witness: the string `"a"` decodes to the
object `okResp2`, the string `"b"` decodes to the string `"a"`. -/
def respA : ChatResult :=
  { success := some true, response := some "inner", agent_steps := none
  , intent := none, intent_confidence := none, rag_documents := none
  , validation := none, error := none }

def loads0 : String → Option Json :=
  fun x =>
    if x = "a" then some (Json.jobj respA)
    else if x = "b" then some (Json.jstr "a")
    else none

/-- A decoder that always fails; used where decoding is irrelevant. -/
def loadsNone : String → Option Json := fun _ => none

/-- A step dictionary with no `status` key at all. -/
def stepNoStatus : Step :=
  { status := none, agent_icon := none, agent := none, action := none
  , details := none }

/-! Theorems, one per claim. -/

/-- Claim C4: for every operation and payload, when no API endpoint is
configured, `call_api` returns `None` and shows the not-configured banner
without issuing any network request. -/
theorem c4_not_configured (api_key : String) (loads : String → Option Json)
    (net : NetResult) (operation : String) (data : List (String × String)) :
    call_api "" api_key loads net operation data =
      { request := none, returned := none,
        errorShown := some "⚠️ API not configured." } := rfl

/-- Claim C3: a response body that is a JSON string containing a JSON object
is unwrapped exactly one level and resolves identically to receiving the inner
object directly; an object body is returned unchanged; and a string body whose
single decode yields another string is returned as that string, not unwrapped
again. -/
theorem c3_unwrap_once (endpoint api_key operation : String)
    (data : List (String × String)) (loads : String → Option Json)
    (s : String) (r : ChatResult) (h : loads s = some (Json.jobj r)) :
    call_api endpoint api_key loads (NetResult.ok (Json.jstr s)) operation data
      = call_api endpoint api_key loads (NetResult.ok (Json.jobj r)) operation data
    ∧ (endpoint ≠ "" →
        (call_api endpoint api_key loads (NetResult.ok (Json.jobj r)) operation data).returned
          = some (Json.jobj r))
    ∧ (∀ s2 t, loads s2 = some (Json.jstr t) → endpoint ≠ "" →
        (call_api endpoint api_key loads (NetResult.ok (Json.jstr s2)) operation data).returned
          = some (Json.jstr t)) := by
  refine ⟨?_, ?_, ?_⟩
  · by_cases he : endpoint = "" <;> simp [call_api, he, h]
  · intro he; simp [call_api, he]
  · intro s2 t h2 he; simp [call_api, he, h2]

/-- Witness for C3 at concrete inputs. -/
theorem c3_unwrap_once_witness :
    call_api "https://x" "k" loads0 (NetResult.ok (Json.jstr "a")) "chat" []
      = call_api "https://x" "k" loads0 (NetResult.ok (Json.jobj respA)) "chat" []
    ∧ (call_api "https://x" "k" loads0 (NetResult.ok (Json.jobj respA)) "chat" []).returned
        = some (Json.jobj respA)
    ∧ (call_api "https://x" "k" loads0 (NetResult.ok (Json.jstr "b")) "chat" []).returned
        = some (Json.jstr "a") := by
  have h := c3_unwrap_once "https://x" "k" "chat" [] loads0 "a" respA (by decide)
  exact ⟨h.1, h.2.1 (by decide), h.2.2 "b" "a" (by decide) (by decide)⟩

/-- Claim C8: the clear button empties the whole history at once, and clearing
twice in a row leaves it empty again with no further state change. -/
theorem c8_clear_idempotent (st : SessionState) :
    (applyEvent st AppEvent.clearHistory).messages = []
    ∧ (applyEvent (applyEvent st AppEvent.clearHistory) AppEvent.clearHistory).messages = []
    ∧ applyEvent (applyEvent st AppEvent.clearHistory) AppEvent.clearHistory
        = applyEvent st AppEvent.clearHistory :=
  ⟨rfl, rfl, rfl⟩

/-- Claim C9: with an absent or empty configured access key every entered key
verifies, so any non-empty entered key authenticates; an empty entered key is
still rejected by the form (authentication state unchanged). -/
theorem c9_open_access (user_access_key entered : String) (st : SessionState)
    (h : entered ≠ "") :
    verify_access_key "" entered = true
    ∧ (login_submit "" st entered).authenticated = true
    ∧ (login_submit user_access_key st "").authenticated = st.authenticated := by
  refine ⟨rfl, ?_, ?_⟩
  · simp [login_submit, verify_access_key, h]
  · simp [login_submit]

/-- Witness for C9 at concrete inputs. -/
theorem c9_open_access_witness :
    verify_access_key "" "anything" = true
    ∧ (login_submit "" st0 "anything").authenticated = true
    ∧ (login_submit "secret" st0 "").authenticated = st0.authenticated :=
  c9_open_access "secret" "anything" st0 (by decide)

/-- Helper: every issued `call_api` request carries exactly the payload it was
given. -/
theorem call_api_request_data (endpoint api_key : String)
    (loads : String → Option Json) (net : NetResult) (operation : String)
    (data : List (String × String)) (req : ChatRequest)
    (h : (call_api endpoint api_key loads net operation data).request = some req) :
    req.data = data := by
  by_cases he : endpoint = ""
  · simp [call_api, he] at h
  · cases net with
    | ok v =>
      cases v with
      | jstr s =>
        cases hl : loads s with
        | some v2 => simp [call_api, he, hl] at h; rw [← h]
        | none => simp [call_api, he, hl] at h; rw [← h]
      | jobj r => simp [call_api, he] at h; rw [← h]
      | jnull => simp [call_api, he] at h; rw [← h]
    | exc m => simp [call_api, he] at h; rw [← h]

/-- Claim C7: the session id is preserved by the init guard once created, every
chat request payload carries the current session id, and no user event mutates
it. -/
theorem c7_session_id_stable (endpoint api_key : String)
    (loads : String → Option Json) (net : NetResult) (st : SessionState)
    (message : String) :
    (∀ s now, init_session_id (some s) now = s)
    ∧ (∀ req, (send_chat endpoint api_key loads net st message).request = some req →
        List.lookup "session_id" req.data = some st.session_id)
    ∧ (∀ e, (applyEvent st e).session_id = st.session_id) := by
  refine ⟨fun s now => rfl, ?_, ?_⟩
  · intro req hreq
    have hd := call_api_request_data endpoint api_key loads net "chat"
      [("message", message), ("session_id", st.session_id),
       ("context", st.context), ("custom_instructions", st.custom_instructions)]
      req hreq
    rw [hd]
    rfl
  · intro e
    cases e with
    | logout => rfl
    | clearHistory => rfl
    | selectContext c => rfl
    | setInstructions s => rfl
    | setShowActivity b => rfl
    | examplePrompt p => rfl
    | loginSubmit uak entered =>
      show (login_submit uak st entered).session_id = st.session_id
      unfold login_submit
      split <;> rfl
    | submitChat chatInput backend =>
      show ((resolve_prompt st chatInput).2).session_id = st.session_id
      unfold resolve_prompt
      cases st.pending_prompt with
      | none => rfl
      | some p => by_cases hp : p = "" <;> simp [hp]

/-- Witness for C7 at concrete inputs. -/
theorem c7_session_id_stable_witness :
    init_session_id (some "s123") 1700000000 = "s123"
    ∧ List.lookup "session_id"
        [("message", "hi"), ("session_id", "s123"),
         ("context", "medallion_architecture"), ("custom_instructions", "")]
        = some "s123"
    ∧ (applyEvent st0 AppEvent.clearHistory).session_id = st0.session_id := by
  have h := c7_session_id_stable "https://x" "k" loadsNone (NetResult.exc "boom") st0 "hi"
  exact ⟨h.1 "s123" 1700000000,
    h.2.1 { operation := "chat"
          , data := [("message", "hi"), ("session_id", "s123"),
                     ("context", "medallion_architecture"), ("custom_instructions", "")]
          , auth := "Bearer k" } (by decide),
    h.2.2 AppEvent.clearHistory⟩

/-- Claim C6: the progress fraction computed for display equals the count of
steps with status completed divided by the total count, is 0 for an empty step
list, and always lies between 0 and 1. -/
theorem c6_progress_fraction (agent_steps : List Step) :
    progress [] = 0
    ∧ progress agent_steps = (completedCount agent_steps : ℚ) / (agent_steps.length : ℚ)
    ∧ 0 ≤ progress agent_steps
    ∧ progress agent_steps ≤ 1 := by
  have hle : completedCount agent_steps ≤ agent_steps.length :=
    List.length_filter_le _ _
  refine ⟨rfl, ?_, ?_, ?_⟩
  · unfold progress
    by_cases h : agent_steps.length > 0
    · simp [h]
    · have h0 : agent_steps.length = 0 := Nat.eq_zero_of_not_pos h
      have hc : completedCount agent_steps = 0 := Nat.le_zero.mp (h0 ▸ hle)
      simp [h, h0, hc]
  · unfold progress
    by_cases h : agent_steps.length > 0
    · rw [if_pos h]
      exact div_nonneg (Nat.cast_nonneg _) (Nat.cast_nonneg _)
    · simp [h]
  · unfold progress
    by_cases h : agent_steps.length > 0
    · rw [if_pos h]
      rw [div_le_one (by exact_mod_cast h)]
      exact_mod_cast hle
    · simp [h]

/-- Claim C10: a step whose status key is absent renders with the completed
icon (the per-step default), yet the progress numerator does not count it, so a
list of such steps shows every step as completed while the fraction is 0. -/
theorem c10_default_status_mismatch (agent_steps : List Step)
    (h : ∀ s ∈ agent_steps, s.status = none) :
    (∀ s ∈ agent_steps, step_status_icon s = "✅")
    ∧ completedCount agent_steps = 0
    ∧ progress agent_steps = 0 := by
  have hc : completedCount agent_steps = 0 := by
    unfold completedCount
    rw [List.length_eq_zero, List.filter_eq_nil_iff]
    intro s hs
    simp [h s hs]
  refine ⟨?_, hc, ?_⟩
  · intro s hs
    simp [step_status_icon, h s hs]
  · unfold progress
    by_cases hl : agent_steps.length > 0
    · simp [hl, hc]
    · simp [hl]

/-- Witness for C10 at a concrete two-step list with absent statuses. -/
theorem c10_default_status_mismatch_witness :
    (∀ s ∈ [stepNoStatus, stepNoStatus], step_status_icon s = "✅")
    ∧ completedCount [stepNoStatus, stepNoStatus] = 0
    ∧ progress [stepNoStatus, stepNoStatus] = 0 :=
  c10_default_status_mismatch [stepNoStatus, stepNoStatus] (by decide)

/-- Counterexample to claim C5: a whitespace-only prompt is truthy, so the
submission is NOT rejected — a user turn is created and a request dispatched. -/
theorem c5_counterexample :
    (processPrompt [] (some " ") none).dispatched = true
    ∧ (processPrompt [] (some " ") none).messages = [userMsg " "] := by
  exact ⟨rfl, rfl⟩

/-- Claim C5 as amended: only an empty (or absent) prompt is rejected as a
no-op — no user turn, no assistant turn, no dispatch. -/
theorem c5_empty_input_noop (messages : List Msg) (backend : Option ChatResult) :
    processPrompt messages none backend =
      { messages := messages, dispatched := false
      , displayedError := none, displayedResponse := none }
    ∧ processPrompt messages (some "") backend =
      { messages := messages, dispatched := false
      , displayedError := none, displayedResponse := none } :=
  ⟨rfl, rfl⟩

/-- Counterexample to claim C1: on a backend failure the history gains no
error turn at all — it holds exactly the user message, and the error string
appears only in the transient inline banner (with a prefix), not as a turn. -/
theorem c1_counterexample :
    processPrompt [] (some "hi") (some rateLimitedResp) =
      { messages := [userMsg "hi"], dispatched := true
      , displayedError := some "❌ rate limited", displayedResponse := none } := by
  rfl

/-- Claim C1 as amended: on a backend failure the history after the call
equals the history before the call (the already-appended user turn included),
prior turns untouched; the error string is shown once inline prefixed with the
cross mark and is not persisted; a next submission still dispatches. -/
theorem c1_error_inline_only (messages : List Msg) (p e : String)
    (r : ChatResult) (hp : p ≠ "") (hs : r.success.getD false = false)
    (he : r.error = some e) :
    processPrompt messages (some p) (some r) =
      { messages := messages ++ [userMsg p], dispatched := true
      , displayedError := some ("❌ " ++ e), displayedResponse := none }
    ∧ (∀ p2 r2, p2 ≠ "" →
        (processPrompt (messages ++ [userMsg p]) (some p2) r2).dispatched = true) := by
  constructor
  · unfold processPrompt
    simp [prompt_truthy, hp, hs, backend_error_text, he]
  · intro p2 r2 hp2
    unfold processPrompt
    have ht : prompt_truthy (some p2) = true := by simp [prompt_truthy, hp2]
    rw [if_pos ht]
    cases r2 with
    | none => rfl
    | some rr =>
      by_cases hss : rr.success.getD false = true
      · simp [hss]
      · simp [hss]

/-- Witness for the amended C1 at concrete inputs. -/
theorem c1_error_inline_only_witness :
    processPrompt [] (some "retry") (some rateLimitedResp) =
      { messages := [userMsg "retry"], dispatched := true
      , displayedError := some ("❌ " ++ "rate limited"), displayedResponse := none } :=
  (c1_error_inline_only [] "retry" "rate limited" rateLimitedResp
    (by decide) (by decide) rfl).1

/-- Claim C2, evaluated at the failing input: a successful response with every
optional field absent renders fine the first time (all defaults fire), but the
turn is saved with metadata values None, and re-rendering it from history
reaches the percent-format of None and raises. -/
theorem c2_absent_fields_rerender_crash :
    render_turn_success okResp = Except.ok ()
    ∧ (processPrompt [] (some "hi2") (some okResp)).messages =
        [userMsg "hi2", assistantMsgOf okResp]
    ∧ (assistantMsgOf okResp).metadata =
        some { intent := none, intent_confidence := none
             , validation := none, rag_documents := [] }
    ∧ render_history true [userMsg "hi2", assistantMsgOf okResp] =
        Except.error "unsupported format string passed to NoneType.__format__"
    ∧ dict_get_passed none =
        Except.error "NoneType object has no attribute get" := by
  refine ⟨rfl, rfl, rfl, rfl, rfl⟩
